import Mathlib

/-!
Verification development for the rs-samples repository.

The model embeds the two programs the claims are about:

* `src/networking/src/main.rs` — a minimal single-threaded TCP server:
  `handle_connection` reads up to 512 bytes into a zero-initialised buffer,
  classifies the request by whether the buffer starts with the byte literal
  `GET / HTTP/1.1\r\n`, loads a corresponding file, writes
  `status_line ++ file_contents` to the stream with a single `write` call and
  flushes.  Every fallible step is `.unwrap()`, so any failure panics the
  (single) thread, i.e. the whole process.
* `src/fibonacci/src/main.rs` — `fib_recursive` and `fib_dp`, two `usize`
  Fibonacci implementations (machine arithmetic is modelled modulo 2 ^ 64).

The environment of one connection (what the OS and filesystem supply: the
result of `stream.read`, the contents of files, how many bytes the single
`stream.write` call accepts) is passed explicitly as data.
-/

/-- Byte string of the Rust literal `b"GET / HTTP/1.1\r\n"` (16 bytes). -/
def get_request : List Nat :=
  [71, 69, 84, 32, 47, 32, 72, 84, 84, 80, 47, 49, 46, 49, 13, 10]

/-- Size of the stack buffer `let mut buffer = [0; 512];`. -/
def BUFFER_SIZE : Nat := 512

/-- The 512-byte buffer after `stream.read` has placed `bytes` at its front:
the remainder keeps its zero initialisation.  (A real read returns at most
`BUFFER_SIZE` bytes, which theorems assume where it matters.) -/
def readBuffer (bytes : List Nat) : List Nat :=
  bytes ++ List.replicate (BUFFER_SIZE - bytes.length) 0

/-- Model of Rust `slice::starts_with`: does `buffer` begin with `pat`? -/
def starts_with : List Nat → List Nat → Bool
  | _, [] => true
  | [], _ :: _ => false
  | b :: bs, p :: ps => b == p && starts_with bs ps

/-- Status line chosen on a successful prefix match (note that the literal
itself ends in the blank line `\r\n\r\n`). -/
def status_200 : String := "HTTP/1.1 200 OK\r\n\r\n"

/-- Status line chosen when the prefix does not match. -/
def status_404 : String := "HTTP/1.1 404 NOT FOUND\r\n\r\n"

/-- File served on a successful prefix match. -/
def success_file : String := "hello_rust.html"

/-- File served when the prefix does not match. -/
def notfound_file : String := "404.html"

/-- The `if buffer.starts_with(get_request) { ... } else { ... }` expression of
`handle_connection`: picks the `(status_line, filename)` pair. -/
def classify (buffer : List Nat) : String × String :=
  if starts_with buffer get_request then
    (status_200, success_file)
  else
    (status_404, notfound_file)

/-- UTF-8 bytes of an ASCII string (all strings in this program are ASCII, so
the code points are the bytes); models `str::as_bytes`. -/
def strBytes (s : String) : List Nat :=
  s.data.map Char.toNat

/-- Environment of one accepted connection: everything the outside world
supplies during `handle_connection`. -/
structure ConnEnv where
  /-- Result of `stream.read(&mut buffer)`: the bytes read (length at most
  `BUFFER_SIZE`), or an I/O error. -/
  readResult : Except Unit (List Nat)
  /-- Filesystem at this moment: contents of each file as text (the program
  reads files with `read_to_string`), or an error if the file is missing,
  unreadable or not valid UTF-8. -/
  fs : String → Except Unit String
  /-- How many bytes the single `stream.write` call accepts (Rust
  `io::Write::write` may accept only a prefix; the code discards the count). -/
  writeAccept : Nat

/-- Result of one `handle_connection` invocation. -/
inductive Outcome where
  /-- Some `.unwrap()` failed: the thread panics; since the server is
  single-threaded this aborts the whole process.  No response was written. -/
  | panicked : Outcome
  /-- The handler ran to the end: it chose `statusLine` and `filename`, built
  `response`, passed its bytes to one `write` call of which the stream accepted
  the prefix `wire`, and flushed. -/
  | served (statusLine filename : String) (response : String)
      (wire : List Nat) (flushed : Bool) : Outcome
deriving DecidableEq

/-- Model of `handle_connection` (src/networking/src/main.rs, lines 19-88). -/
def handle_connection (env : ConnEnv) : Outcome :=
  match env.readResult with
  | Except.error _ => Outcome.panicked
  | Except.ok bytes =>
    let buffer := readBuffer bytes
    let sf := classify buffer
    match env.fs sf.2 with
    | Except.error _ => Outcome.panicked
    | Except.ok content =>
      let response := sf.1 ++ content
      let wire := (strBytes response).take env.writeAccept
      Outcome.served sf.1 sf.2 response wire true

/-- Hardcoded bind address passed to `TcpListener::bind`. -/
def bind_address : String := "127.0.0.1:8080"

/-- The `for stream in listener.incoming()` loop of `main`: each accepted
connection is handled to completion before the next `accept`.  A failed accept
or a panicking handler aborts the process, so no later connection is ever
handled. -/
def acceptLoop : List (Except Unit ConnEnv) → List Outcome
  | [] => []
  | Except.error _ :: _ => [Outcome.panicked]
  | Except.ok c :: rest =>
    match handle_connection c with
    | Outcome.panicked => [Outcome.panicked]
    | o => o :: acceptLoop rest

/-- Result of running `main`. -/
inductive ServerResult where
  /-- `TcpListener::bind(..).unwrap()` failed: the process terminates at once,
  no connection is ever accepted and no retry happens. -/
  | bindPanic : ServerResult
  /-- The listener bound successfully and the accept loop ran over the
  incoming connections. -/
  | run (outcomes : List Outcome) : ServerResult
deriving DecidableEq

/-- Model of `main` (src/networking/src/main.rs, lines 90-131): bind, then the
serial accept loop. -/
def serverMain (bindResult : Except Unit Unit)
    (conns : List (Except Unit ConnEnv)) : ServerResult :=
  match bindResult with
  | Except.error _ => ServerResult.bindPanic
  | Except.ok _ => ServerResult.run (acceptLoop conns)

/-- Model of `fib_recursive` (src/fibonacci/src/main.rs).  `usize` addition is
modulo 2 ^ 64. -/
def fib_recursive : Nat → Nat
  | 0 => 0
  | 1 => 1
  | n + 2 => (fib_recursive (n + 1) + fib_recursive n) % 2 ^ 64

/-- One iteration of the `for _ in 2..(n + 1)` loop body of `fib_dp`:
`total = f1 + f2; f1 = f2; f2 = total;` on the state `(f1, f2, total)`. -/
def fibDpStep : Nat × Nat × Nat → Nat × Nat × Nat
  | (f1, f2, _) => (f2, (f1 + f2) % 2 ^ 64, (f1 + f2) % 2 ^ 64)

/-- The loop of `fib_dp`, iterated `k` times. -/
def fibDpLoop : Nat → Nat × Nat × Nat → Nat × Nat × Nat
  | 0, s => s
  | k + 1, s => fibDpLoop k (fibDpStep s)

/-- Model of `fib_dp` (src/fibonacci/src/main.rs): for `n ≥ 2` the loop runs
over `2..(n + 1)`, i.e. `n - 1` times, from `f1 = 0, f2 = 1, total = 0`, and
the final `total` is returned. -/
def fib_dp (n : Nat) : Nat :=
  if n = 0 || n = 1 then n
  else (fibDpLoop (n - 1) (0, 1, 0)).2.2

/-! ### Helper lemmas -/

lemma classify_of_match {buffer : List Nat}
    (h : starts_with buffer get_request = true) :
    classify buffer = (status_200, success_file) := by
  simp [classify, h]

lemma classify_of_no_match {buffer : List Nat}
    (h : starts_with buffer get_request = false) :
    classify buffer = (status_404, notfound_file) := by
  simp [classify, h]

lemma handle_connection_served (env : ConnEnv) (bytes : List Nat)
    (s f content : String)
    (hread : env.readResult = Except.ok bytes)
    (hcl : classify (readBuffer bytes) = (s, f))
    (hfs : env.fs f = Except.ok content) :
    handle_connection env =
      Outcome.served s f (s ++ content)
        ((strBytes (s ++ content)).take env.writeAccept) true := by
  unfold handle_connection
  rw [hread]
  simp only [hcl, hfs]

lemma handle_connection_read_panic (env : ConnEnv) (e : Unit)
    (hread : env.readResult = Except.error e) :
    handle_connection env = Outcome.panicked := by
  unfold handle_connection
  rw [hread]

lemma handle_connection_file_panic (env : ConnEnv) (bytes : List Nat) (e : Unit)
    (hread : env.readResult = Except.ok bytes)
    (hfs : env.fs (classify (readBuffer bytes)).2 = Except.error e) :
    handle_connection env = Outcome.panicked := by
  unfold handle_connection
  rw [hread]
  simp only [hfs]

lemma acceptLoop_cons_panic (env : ConnEnv) (rest : List (Except Unit ConnEnv))
    (h : handle_connection env = Outcome.panicked) :
    acceptLoop (Except.ok env :: rest) = [Outcome.panicked] := by
  unfold acceptLoop
  rw [h]

lemma starts_with_nil_buffer :
    starts_with (readBuffer []) get_request = false := by decide

/-! ### Claim theorems -/

/-- C1: if the read buffer starts with the 16 bytes `GET / HTTP/1.1\r\n`, the
handler serves status line `HTTP/1.1 200 OK\r\n\r\n` and a body that is,
byte for byte, the contents of `hello_rust.html` as just read. -/
theorem c1_root_request_serves_success_file (env : ConnEnv)
    (bytes : List Nat) (content : String)
    (_hlen : bytes.length ≤ BUFFER_SIZE)
    (hread : env.readResult = Except.ok bytes)
    (hpre : starts_with (readBuffer bytes) get_request = true)
    (hfs : env.fs success_file = Except.ok content) :
    handle_connection env =
      Outcome.served status_200 success_file (status_200 ++ content)
        ((strBytes (status_200 ++ content)).take env.writeAccept) true :=
  handle_connection_served env bytes status_200 success_file content
    hread (classify_of_match hpre) hfs

/-- Witness for C1 at a concrete connection. -/
theorem c1_witness :
    handle_connection
      ⟨Except.ok get_request,
        fun f => if f = success_file then Except.ok "hi" else Except.error (),
        1000⟩
      = Outcome.served status_200 success_file (status_200 ++ "hi")
          ((strBytes (status_200 ++ "hi")).take 1000) true :=
  c1_root_request_serves_success_file _ get_request "hi"
    (by decide) rfl (by decide) rfl

/-- C2: if the read buffer does not start with `GET / HTTP/1.1\r\n` (whatever
else it holds, empty or malformed), the handler serves status line
`HTTP/1.1 404 NOT FOUND\r\n\r\n` and the contents of `404.html`. -/
theorem c2_other_request_serves_notfound_file (env : ConnEnv)
    (bytes : List Nat) (content : String)
    (_hlen : bytes.length ≤ BUFFER_SIZE)
    (hread : env.readResult = Except.ok bytes)
    (hpre : starts_with (readBuffer bytes) get_request = false)
    (hfs : env.fs notfound_file = Except.ok content) :
    handle_connection env =
      Outcome.served status_404 notfound_file (status_404 ++ content)
        ((strBytes (status_404 ++ content)).take env.writeAccept) true :=
  handle_connection_served env bytes status_404 notfound_file content
    hread (classify_of_no_match hpre) hfs

/-- Witness for C2 at a concrete connection (a `GET /foo` style request). -/
theorem c2_witness :
    handle_connection
      ⟨Except.ok [71, 69, 84, 32, 47, 102, 111, 111],
        fun f => if f = notfound_file then Except.ok "nf" else Except.error (),
        1000⟩
      = Outcome.served status_404 notfound_file (status_404 ++ "nf")
          ((strBytes (status_404 ++ "nf")).take 1000) true :=
  c2_other_request_serves_notfound_file _ [71, 69, 84, 32, 47, 102, 111, 111]
    "nf" (by decide) rfl (by decide) rfl

/-- C3 counterexample: on a connection whose read returns 0 bytes the handler
does NOT abandon the connection without a response — the buffer stays all
zeros, the prefix check fails, and a full 404 response is written.  And on a
connection whose read errors, the panic is process-fatal, not fatal to that
connection only: a healthy second connection is never handled. -/
theorem c3_counterexample :
    (handle_connection ⟨Except.ok [], fun _ => Except.ok "nf", 1000⟩
        ≠ Outcome.panicked ∧
      handle_connection ⟨Except.ok [], fun _ => Except.ok "nf", 1000⟩
        = Outcome.served status_404 notfound_file (status_404 ++ "nf")
            ((strBytes (status_404 ++ "nf")).take 1000) true) ∧
    acceptLoop [Except.ok ⟨Except.error (), fun _ => Except.ok "nf", 1000⟩,
                Except.ok ⟨Except.ok [], fun _ => Except.ok "nf", 1000⟩]
      = [Outcome.panicked] := by
  exact ⟨⟨by decide, by decide⟩, by decide⟩

/-- C3 (amended): a read returning 0 bytes is not an error — the buffer keeps
its zero initialisation, the request is classified as non-matching and the
404 response is served (when the 404 file is readable).  A read that errors
makes the `.unwrap()` panic: no response is written on that connection, and —
the server being single-threaded — the panic is process-fatal: the accept
loop ends and no later connection is handled. -/
theorem c3_zero_read_serves_404_and_read_error_panics :
    (∀ (env : ConnEnv) (content : String),
      env.readResult = Except.ok ([] : List Nat) →
      env.fs notfound_file = Except.ok content →
      handle_connection env =
        Outcome.served status_404 notfound_file (status_404 ++ content)
          ((strBytes (status_404 ++ content)).take env.writeAccept) true) ∧
    (∀ (env : ConnEnv) (rest : List (Except Unit ConnEnv)),
      env.readResult = Except.error () →
      handle_connection env = Outcome.panicked ∧
      acceptLoop (Except.ok env :: rest) = [Outcome.panicked]) := by
  constructor
  · intro env content hread hfs
    exact handle_connection_served env [] status_404 notfound_file content
      hread (classify_of_no_match starts_with_nil_buffer) hfs
  · intro env rest hread
    have hp := handle_connection_read_panic env () hread
    exact ⟨hp, acceptLoop_cons_panic env rest hp⟩

/-- Witness for the amended C3 at concrete connections. -/
theorem c3_witness :
    (handle_connection ⟨Except.ok [], fun _ => Except.ok "nf", 3⟩
      = Outcome.served status_404 notfound_file (status_404 ++ "nf")
          ((strBytes (status_404 ++ "nf")).take 3) true) ∧
    acceptLoop [Except.ok ⟨Except.error (), fun _ => Except.ok "nf", 3⟩]
      = [Outcome.panicked] :=
  ⟨c3_zero_read_serves_404_and_read_error_panics.1 _ "nf" rfl rfl,
   (c3_zero_read_serves_404_and_read_error_panics.2 _ [] rfl).2⟩

/-- C4 counterexample: a file-read failure is process-fatal, not fatal to that
connection only — after a connection whose chosen file cannot be read, a
second, perfectly healthy connection is never handled at all. -/
theorem c4_counterexample :
    acceptLoop
        [Except.ok ⟨Except.ok [], fun _ => Except.error (), 9⟩,
         Except.ok ⟨Except.ok [], fun _ => Except.ok "ok", 9⟩]
      = [Outcome.panicked] ∧
    handle_connection ⟨Except.ok [], fun _ => Except.ok "ok", 9⟩
        ≠ Outcome.panicked := by
  exact ⟨by decide, by decide⟩

/-- C4 (amended): when opening or reading the chosen file fails, the
`.unwrap()` panics: no response is written on that connection, and in this
minimal single-threaded design the panic is process-fatal — the accept loop
terminates and no further connection is served. -/
theorem c4_file_error_panics_process :
    ∀ (env : ConnEnv) (bytes : List Nat),
      env.readResult = Except.ok bytes →
      env.fs (classify (readBuffer bytes)).2 = Except.error () →
      handle_connection env = Outcome.panicked ∧
      ∀ rest : List (Except Unit ConnEnv),
        acceptLoop (Except.ok env :: rest) = [Outcome.panicked] := by
  intro env bytes hread hfs
  have hp := handle_connection_file_panic env bytes () hread hfs
  exact ⟨hp, fun rest => acceptLoop_cons_panic env rest hp⟩

/-- Witness for the amended C4 at a concrete connection. -/
theorem c4_witness :
    handle_connection ⟨Except.ok [], fun _ => Except.error (), 9⟩
      = Outcome.panicked ∧
    acceptLoop [Except.ok ⟨Except.ok [], fun _ => Except.error (), 9⟩,
                Except.ok ⟨Except.ok [], fun _ => Except.ok "ok", 9⟩]
      = [Outcome.panicked] :=
  ⟨(c4_file_error_panics_process _ [] rfl rfl).1,
   (c4_file_error_panics_process _ [] rfl rfl).2 _⟩

/-- C5: the accept loop is strictly serial and shares no mutable state — as
long as no handler panics, the outcomes are exactly the handlers mapped one by
one, in order, over the connections, each outcome a pure function of its own
connection's environment alone. -/
theorem c5_serial_accept_loop (cs : List ConnEnv)
    (h : ∀ c ∈ cs, handle_connection c ≠ Outcome.panicked) :
    acceptLoop (cs.map Except.ok) = cs.map handle_connection := by
  induction cs with
  | nil => rfl
  | cons c rest ih =>
    have hc : handle_connection c ≠ Outcome.panicked := h c (by simp)
    cases hco : handle_connection c with
    | panicked => exact absurd hco hc
    | served s f r w fl =>
      simp only [List.map_cons]
      unfold acceptLoop
      rw [hco]
      rw [ih (fun x hx => h x (by simp [hx]))]

/-- Witness for C5 on a concrete two-connection run. -/
theorem c5_witness :
    acceptLoop
        (List.map Except.ok
          [(⟨Except.ok get_request, fun _ => Except.ok "a", 5⟩ : ConnEnv),
           (⟨Except.ok [], fun _ => Except.ok "b", 5⟩ : ConnEnv)])
      = List.map handle_connection
          [(⟨Except.ok get_request, fun _ => Except.ok "a", 5⟩ : ConnEnv),
           (⟨Except.ok [], fun _ => Except.ok "b", 5⟩ : ConnEnv)] :=
  c5_serial_accept_loop _ (by decide)

/-- C6: the bind address is the hardcoded `127.0.0.1:8080`, and a bind failure
terminates the process at once — no connection is ever accepted and no retry
is attempted. -/
theorem c6_bind_hardcoded_and_fatal :
    bind_address = "127.0.0.1:8080" ∧
    ∀ conns : List (Except Unit ConnEnv),
      serverMain (Except.error ()) conns = ServerResult.bindPanic :=
  ⟨rfl, fun _ => rfl⟩

/-- C7: every completed response has the wire shape
`<status-line>\r\n\r\n<body-bytes>`: the chosen status line is one of the two
fixed literals (each of which itself ends in the `\r\n\r\n` blank line), and
the response is exactly that literal followed by the body. -/
theorem c7_wire_format (env : ConnEnv) (bytes : List Nat) (content : String)
    (hread : env.readResult = Except.ok bytes)
    (hfs : env.fs (classify (readBuffer bytes)).2 = Except.ok content) :
    (handle_connection env =
        Outcome.served status_200 success_file (status_200 ++ content)
          ((strBytes (status_200 ++ content)).take env.writeAccept) true ∧
      status_200 = "HTTP/1.1 200 OK" ++ "\r\n\r\n") ∨
    (handle_connection env =
        Outcome.served status_404 notfound_file (status_404 ++ content)
          ((strBytes (status_404 ++ content)).take env.writeAccept) true ∧
      status_404 = "HTTP/1.1 404 NOT FOUND" ++ "\r\n\r\n") := by
  cases hsw : starts_with (readBuffer bytes) get_request with
  | true =>
    left
    rw [classify_of_match hsw] at hfs
    exact ⟨handle_connection_served env bytes status_200 success_file content
      hread (classify_of_match hsw) hfs, by decide⟩
  | false =>
    right
    rw [classify_of_no_match hsw] at hfs
    exact ⟨handle_connection_served env bytes status_404 notfound_file content
      hread (classify_of_no_match hsw) hfs, by decide⟩

/-- Witness for C7 at a concrete connection. -/
theorem c7_witness :
    (handle_connection ⟨Except.ok [], fun _ => Except.ok "b", 2⟩
        = Outcome.served status_200 success_file (status_200 ++ "b")
          ((strBytes (status_200 ++ "b")).take 2) true ∧
      status_200 = "HTTP/1.1 200 OK" ++ "\r\n\r\n") ∨
    (handle_connection ⟨Except.ok [], fun _ => Except.ok "b", 2⟩
        = Outcome.served status_404 notfound_file (status_404 ++ "b")
          ((strBytes (status_404 ++ "b")).take 2) true ∧
      status_404 = "HTTP/1.1 404 NOT FOUND" ++ "\r\n\r\n") :=
  c7_wire_format ⟨Except.ok [], fun _ => Except.ok "b", 2⟩ [] "b" rfl rfl

/-- C8 counterexample: the handler issues a single `write` and discards the
returned byte count, so when the stream accepts fewer bytes than the response
length nothing is retried — here the stream accepts 0 bytes, the wire carries
nothing, yet the response is non-empty.  Bytes of the response ARE omitted. -/
theorem c8_counterexample :
    handle_connection ⟨Except.ok [], fun _ => Except.ok "x", 0⟩
      = Outcome.served status_404 notfound_file (status_404 ++ "x") [] true ∧
    strBytes (status_404 ++ "x") ≠ [] := by
  exact ⟨by decide, by decide⟩

/-- C8 (amended): on every completed connection the handler passes the FULL
concatenated byte sequence to one `write` call and then flushes; the bytes on
the wire are the prefix of the response the stream accepts, with no retry of
the remainder — in particular, whenever the stream accepts at least the full
length (the typical case), no byte of the response is omitted. -/
theorem c8_single_write_then_flush (env : ConnEnv) (s f r : String)
    (w : List Nat) (fl : Bool)
    (h : handle_connection env = Outcome.served s f r w fl) :
    fl = true ∧ w = (strBytes r).take env.writeAccept ∧
    ((strBytes r).length ≤ env.writeAccept → w = strBytes r) := by
  cases hr : env.readResult with
  | error e =>
    rw [handle_connection_read_panic env e hr] at h
    exact Outcome.noConfusion h
  | ok bytes =>
    cases hfs : env.fs (classify (readBuffer bytes)).2 with
    | error e =>
      rw [handle_connection_file_panic env bytes e hr hfs] at h
      exact Outcome.noConfusion h
    | ok content =>
      have hs := handle_connection_served env bytes
        (classify (readBuffer bytes)).1 (classify (readBuffer bytes)).2
        content hr rfl hfs
      rw [hs] at h
      injection h with h1 h2 h3 h4 h5
      refine ⟨h5.symm, ?_, ?_⟩
      · rw [← h4, ← h3]
      · intro hlen
        rw [← h4, ← h3]
        exact List.take_of_length_le (by rw [h3]; exact hlen)

/-- Witness for the amended C8 at a concrete connection. -/
theorem c8_witness :
    true = true ∧
    (strBytes (status_404 ++ "x")).take 100
      = (strBytes (status_404 ++ "x")).take 100 ∧
    ((strBytes (status_404 ++ "x")).length ≤ 100 →
      (strBytes (status_404 ++ "x")).take 100 = strBytes (status_404 ++ "x")) :=
  c8_single_write_then_flush ⟨Except.ok [], fun _ => Except.ok "x", 100⟩
    status_404 notfound_file (status_404 ++ "x")
    ((strBytes (status_404 ++ "x")).take 100) true (by decide)

lemma starts_with_congr : ∀ (p b1 b2 : List Nat),
    List.take p.length b1 = List.take p.length b2 →
    starts_with b1 p = starts_with b2 p := by
  intro p
  induction p with
  | nil =>
    intro b1 b2 _
    cases b1 <;> cases b2 <;> rfl
  | cons q ps ih =>
    intro b1 b2 h
    cases b1 with
    | nil =>
      cases b2 with
      | nil => rfl
      | cons y ys => simp at h
    | cons x xs =>
      cases b2 with
      | nil => simp at h
      | cons y ys =>
        simp only [List.length_cons, List.take_succ_cons, List.cons.injEq] at h
        obtain ⟨hxy, ht⟩ := h
        simp [starts_with, hxy, ih xs ys ht]

/-- C10: classification is a function of the first 16 bytes only — two
512-byte buffers that agree on their first 16 bytes get the same status line
and the same file, whatever their remaining 496 bytes hold. -/
theorem c10_classification_depends_on_first_16_bytes (b1 b2 : List Nat)
    (_h1 : b1.length = BUFFER_SIZE) (_h2 : b2.length = BUFFER_SIZE)
    (h : b1.take 16 = b2.take 16) :
    classify b1 = classify b2 := by
  have hsw : starts_with b1 get_request = starts_with b2 get_request :=
    starts_with_congr get_request b1 b2 h
  unfold classify
  rw [hsw]

set_option maxRecDepth 4096 in
/-- Witness for C10 on two concrete 512-byte buffers differing after byte 16. -/
theorem c10_witness :
    classify (readBuffer get_request)
      = classify (readBuffer (get_request ++ [65])) :=
  c10_classification_depends_on_first_16_bytes
    (readBuffer get_request) (readBuffer (get_request ++ [65]))
    (by decide) (by decide) (by decide)

lemma fib_recursive_add (n : Nat) :
    (fib_recursive n + fib_recursive (n + 1)) % 2 ^ 64
      = fib_recursive (n + 2) := by
  show _ = (fib_recursive (n + 1) + fib_recursive n) % 2 ^ 64
  rw [Nat.add_comm]

lemma fibDpStep_fib (n t : Nat) :
    fibDpStep (fib_recursive n, fib_recursive (n + 1), t)
      = (fib_recursive (n + 1), fib_recursive (n + 2), fib_recursive (n + 2)) := by
  simp only [fibDpStep, fib_recursive_add n]

lemma fibDpLoop_fib : ∀ (k n t : Nat),
    fibDpLoop (k + 1) (fib_recursive n, fib_recursive (n + 1), t)
      = (fib_recursive (n + k + 1), fib_recursive (n + k + 2),
          fib_recursive (n + k + 2)) := by
  intro k
  induction k with
  | zero =>
    intro n t
    show fibDpLoop 0 (fibDpStep (fib_recursive n, fib_recursive (n + 1), t))
        = (fib_recursive (n + 1), fib_recursive (n + 2), fib_recursive (n + 2))
    rw [fibDpStep_fib]
    rfl
  | succ k ih =>
    intro n t
    show fibDpLoop (k + 1) (fibDpStep (fib_recursive n, fib_recursive (n + 1), t))
        = (fib_recursive (n + (k + 1) + 1), fib_recursive (n + (k + 1) + 2),
            fib_recursive (n + (k + 1) + 2))
    rw [fibDpStep_fib]
    have hstep := ih (n + 1) (fib_recursive (n + 2))
    rw [show n + 1 + 1 = n + 2 from rfl] at hstep
    rw [hstep]
    simp only [Prod.mk.injEq]
    exact ⟨congrArg fib_recursive (by omega), congrArg fib_recursive (by omega),
      congrArg fib_recursive (by omega)⟩

/-- C9: the naive recursive Fibonacci and the iterative dynamic-programming
Fibonacci agree at every input (with machine addition modelled mod 2 ^ 64). -/
theorem c9_fib_recursive_eq_fib_dp : ∀ n : Nat, fib_recursive n = fib_dp n := by
  intro n
  match n with
  | 0 => rfl
  | 1 => rfl
  | m + 2 =>
    show fib_recursive (m + 2) = fib_dp (m + 2)
    unfold fib_dp
    simp only [Nat.add_eq_zero, OfNat.ofNat_ne_zero, and_false, decide_False,
      Bool.false_or]
    have hcond : decide (m + 2 = 1) = false := by
      simp
    rw [hcond]
    simp only [Bool.false_eq_true, if_false]
    have h1 : m + 2 - 1 = m + 1 := rfl
    rw [h1]
    rw [show ((0 : Nat), (1 : Nat), (0 : Nat))
      = (fib_recursive 0, fib_recursive 1, (0 : Nat)) from rfl]
    rw [fibDpLoop_fib m 0 0]
    exact congrArg fib_recursive (by omega)
